import Mathlib

/-!
Verification of the Willovate_Services order/table/plan/coupon backend.

Shallow embedding of the Express + Prisma route handlers as pure Lean
functions.  The relational store is passed in explicitly (an order lookup
result is an `Option Order`, the coupon table is a `List Coupon`, ...) and
each handler returns an inductive result mirroring the HTTP outcomes it
can produce.  JavaScript numbers are modelled as `ℚ` (for prices/amounts)
and `Int`/`Nat`; JavaScript truthiness of optional request fields is made
explicit by the `truthy*` helpers (0, the empty string and absent values
are falsy; arrays are always truthy).
-/

/-- One `OrderItem` row: product reference, quantity, price and name
snapshots taken from the request at creation time, and a free-form status
string (the code compares it against the literal "Completed"). -/
structure OrderItem where
  productId : Nat
  quantity : Nat
  price : ℚ
  name : String
  status : String
deriving Repr, DecidableEq

/-- One `Order` row together with its included `items` relation. -/
structure Order where
  id : Nat
  businessId : Nat
  customerId : Option Nat
  tableNumber : Int
  totalAmount : ℚ
  paymentMethod : String
  estimatedTime : String
  status : String
  items : List OrderItem
deriving Repr, DecidableEq

/-- The item aggregation used throughout routes/order:
`order.items.every(item => item.status === "Completed")`. -/
def allCompleted (items : List OrderItem) : Bool :=
  items.all fun i => i.status == "Completed"

/-- The order-level status derivation appearing (verbatim, three times) in
routes/order: `allItemsCompleted && items.length > 0 ? "Completed" : "Pending"`. -/
def deriveOrderStatus (items : List OrderItem) : String :=
  if allCompleted items && decide (0 < items.length) then "Completed" else "Pending"

/-- JavaScript `String.prototype.padStart(w, c)`. -/
def padStart (s : String) (w : Nat) (c : Char) : String :=
  String.mk (List.replicate (w - s.length) c) ++ s

/-- The order tag `ORD$\{order.id.toString().padStart(5, "0")\}` built by
every order response. -/
def formatOrderId (id : Nat) : String :=
  "ORD" ++ padStart (Nat.repr id) 5 '0'

/-- Outcomes of the three PATCH handlers on an order.  `unauthorized` is
the 401 for a session without a businessId, `forbidden` the 403 for a
missing or cross-tenant order, `itemNotFound` the 404 of the per-item
route, and `ok` carries the stored order after the writes together with
the status string reported in the response body. -/
inductive PatchResult where
  | unauthorized
  | forbidden
  | itemNotFound
  | ok (updated : Order) (reported : String)
deriving Repr, DecidableEq

/-- Handler of `PATCH /:orderId/items/:productId/status`
(routes/order, authenticated): verify the session businessId, verify the
order belongs to that business, 404 when no item of the order carries the
product id, otherwise set the status of every matching item
(`orderItem.updateMany` on (orderId, productId)), then recompute and
store the order-level status from the updated items. -/
def patchItemStatus (session : Option Nat) (stored : Option Order)
    (productId : Nat) (newStatus : String) : PatchResult :=
  match session with
  | none => .unauthorized
  | some bid =>
    match stored with
    | none => .forbidden
    | some o =>
      if o.businessId != bid then .forbidden
      else if (o.items.find? fun i => i.productId == productId).isNone then .itemNotFound
      else
        let updatedItems := o.items.map fun i =>
          if i.productId == productId then { i with status := newStatus } else i
        let newOrderStatus := deriveOrderStatus updatedItems
        .ok { o with items := updatedItems, status := newOrderStatus } newOrderStatus

/-- Handler of `PATCH /:orderId/complete-all` (routes/order,
authenticated): after the same session/tenant checks, set every item of
the order to "Completed" and set the stored order status to "Completed"
unconditionally (no derivation from the items). -/
def completeAll (session : Option Nat) (stored : Option Order) : PatchResult :=
  match session with
  | none => .unauthorized
  | some bid =>
    match stored with
    | none => .forbidden
    | some o =>
      if o.businessId != bid then .forbidden
      else
        let updatedItems := o.items.map fun i => { i with status := "Completed" }
        .ok { o with items := updatedItems, status := "Completed" } "Completed"

/-- Handler of `PATCH /:orderId/status` (routes/order, authenticated):
after the session/tenant checks it writes the caller-supplied status
string directly into the order row (`data: \x7b status \x7d`), leaving the
items untouched and performing no recomputation. -/
def patchOrderStatus (session : Option Nat) (stored : Option Order)
    (newStatus : String) : PatchResult :=
  match session with
  | none => .unauthorized
  | some bid =>
    match stored with
    | none => .forbidden
    | some o =>
      if o.businessId != bid then .forbidden
      else .ok { o with status := newStatus } newStatus

/-- Response body of the single-order fetch and of the order update. -/
structure OrderResponse where
  order_id : String
  table_number : Int
  total_amount : ℚ
  payment_method : String
  status : String
  estimated_time : String
  items : List OrderItem
deriving Repr, DecidableEq

/-- Outcome of `GET /:orderId`. -/
inductive GetResult where
  | notFound
  | ok (resp : OrderResponse)
deriving Repr, DecidableEq

/-- Handler of `GET /:orderId` (routes/order).  The route mounts no
authentication middleware and builds its Prisma query from the order id
alone, so the handler has no session/tenant input at all: any caller
receives the order.  The displayed status is re-derived from the items. -/
def getOrder (stored : Option Order) : GetResult :=
  match stored with
  | none => .notFound
  | some o =>
    .ok { order_id := formatOrderId o.id
          table_number := o.tableNumber
          total_amount := o.totalAmount
          payment_method := o.paymentMethod
          status := deriveOrderStatus o.items
          estimated_time := o.estimatedTime
          items := o.items }

/-- JavaScript truthiness of a possibly-absent number (`undefined` and 0
are falsy). -/
def truthyNum (x : Option ℚ) : Bool :=
  match x with
  | some v => v != 0
  | none => false

/-- JavaScript truthiness of a possibly-absent integer. -/
def truthyInt (x : Option Int) : Bool :=
  match x with
  | some v => v != 0
  | none => false

/-- JavaScript truthiness of a possibly-absent natural id. -/
def truthyNat (x : Option Nat) : Bool :=
  match x with
  | some v => v != 0
  | none => false

/-- JavaScript truthiness of a possibly-absent string (`undefined` and ""
are falsy). -/
def truthyStr (x : Option String) : Bool :=
  match x with
  | some s => s != ""
  | none => false

/-- One entry of the request's `cart_items` array.  The `status` field is
only consulted by the PUT update handler (`item.status || ...`); the POST
create handler ignores it and stores "Pending". -/
structure CartItem where
  productId : Nat
  quantity : Nat
  price : ℚ
  name : String
  status : Option String
deriving Repr, DecidableEq

/-- Body of `POST /` (order creation).  Every field may be absent and the
handler checks them by JavaScript truthiness; an array field is truthy
even when empty, which is why the empty-cart case reaches the dedicated
`Array.isArray` check. -/
structure CreateOrderRequest where
  businessId : Option Nat
  table_number : Option Int
  cart_items : Option (List CartItem)
  total_amount : Option ℚ
  payment_method : Option String
  estimated_time : Option String
  pointsUsed : Option Int
deriving Repr, DecidableEq

/-- Body of the 201 response of `POST /`. -/
structure OrderCreateResponse where
  order_id : String
  table_number : Int
  status : String
  estimated_time : String
  items : List OrderItem
deriving Repr, DecidableEq

/-- Outcomes of `POST /`: the three 400 validation branches and the 201
creation carrying the stored order row (with its created items) and the
response body. -/
inductive CreateResult where
  | missingBusinessId
  | missingFields
  | emptyCart
  | created (order : Order) (resp : OrderCreateResponse)
deriving Repr, DecidableEq

/-- Handler of `POST /` (routes/order, optional customer token): validate
by truthiness, reject an empty `cart_items` array, then create exactly one
order row with status "Pending" whose items are the cart entries with the
caller-supplied price and name stored as snapshots and status "Pending".
`customerId` is the id decoded from an optional bearer token (guest when
absent) and `newId` the database-assigned serial id. -/
def createOrder (req : CreateOrderRequest) (customerId : Option Nat)
    (newId : Nat) : CreateResult :=
  if !truthyNat req.businessId then .missingBusinessId
  else if !(truthyNat req.businessId && truthyInt req.table_number &&
            req.cart_items.isSome && truthyNum req.total_amount &&
            truthyStr req.payment_method && truthyStr req.estimated_time) then
    .missingFields
  else
    match req.businessId, req.table_number, req.cart_items,
          req.total_amount, req.payment_method, req.estimated_time with
    | some bid, some tn, some cart, some total, some pm, some et =>
      if cart.length == 0 then .emptyCart
      else
        let order : Order :=
          { id := newId, businessId := bid, customerId := customerId
            tableNumber := tn, totalAmount := total, paymentMethod := pm
            estimatedTime := et, status := "Pending"
            items := cart.map fun c =>
              { productId := c.productId, quantity := c.quantity
                price := c.price, name := c.name, status := "Pending" } }
        .created order
          { order_id := formatOrderId newId, table_number := tn
            status := "Pending", estimated_time := et, items := order.items }
    | _, _, _, _, _, _ => .missingFields

/-- A `Customer` row restricted to the fields touched by order creation
(`points`, `totalOrders`, `totalMoneySpent` are NOT NULL with default 0). -/
structure Customer where
  id : Nat
  points : Int
  totalOrders : Nat
  totalMoneySpent : ℚ
deriving Repr, DecidableEq

/-- Point-redemption step of `POST /`: runs only when the request carries
a truthy positive `pointsUsed`; the balance is decremented only when the
current balance covers the requested amount, otherwise the attempt is
logged and skipped without failing the request. -/
def redeemPoints (c : Customer) (pointsUsed : Option Int) : Customer :=
  match pointsUsed with
  | some p =>
    if p != 0 && decide (0 < p) then
      if c.points ≥ p then { c with points := c.points - p } else c
    else c
  | none => c

/-- Point-accrual step of `POST /`: for an order attributed to a customer,
increment the order count, the cumulative spend, and the points by
`Math.floor(total / 100)`. -/
def accruePoints (c : Customer) (total : ℚ) : Customer :=
  { c with totalOrders := c.totalOrders + 1
           totalMoneySpent := c.totalMoneySpent + total
           points := c.points + ⌊total / 100⌋ }

/-- Full customer side effect of a successful `POST /` attributed to a
customer: redemption (conditional) then accrual, in the handler's order. -/
def customerAfterCreate (c : Customer) (pointsUsed : Option Int)
    (total : ℚ) : Customer :=
  accruePoints (redeemPoints c pointsUsed) total

/-- End-to-end `POST /` for an authenticated customer: the order creation
together with the resulting customer row.  The customer steps run only
after the order row was created (a validation failure leaves the customer
untouched). -/
def placeOrder (req : CreateOrderRequest) (customer : Option Customer)
    (newId : Nat) : CreateResult × Option Customer :=
  match createOrder req (customer.map fun c => c.id) newId with
  | .created o resp =>
    (.created o resp,
     match customer, req.total_amount with
     | some c, some total => some (customerAfterCreate c req.pointsUsed total)
     | some c, none => some c
     | none, _ => none)
  | r => (r, customer)

/-- Item-status defaulting of the PUT update handler:
`item.status || matched?.status || "Pending"` where `matched` is the
just-deleted item carrying the same product id. -/
def putItemStatus (c : CartItem) (existing : List OrderItem) : String :=
  if truthyStr c.status then c.status.getD ""
  else
    match existing.find? fun e => e.productId == c.productId with
    | some e => if e.status != "" then e.status else "Pending"
    | none => "Pending"

/-- Outcomes of `PUT /:orderId`. -/
inductive UpdateResult where
  | missingBusinessId
  | forbidden
  | ok (updated : Order) (resp : OrderResponse)
deriving Repr, DecidableEq

/-- Handler of `PUT /:orderId` (routes/order, no auth middleware): the
tenant check compares the stored order's businessId with the
caller-supplied body `businessId`.  Existing items are deleted and
replaced by the cart entries with the defaulted statuses; the order
update writes tableNumber/totalAmount/paymentMethod/estimatedTime and the
new items but never writes the `status` column, while the response body
reports the hard-coded string "Pending". -/
def updateOrder (bodyBusinessId : Option Nat) (stored : Option Order)
    (tn : Int) (cart : List CartItem) (total : ℚ) (pm : String)
    (et : String) : UpdateResult :=
  if !truthyNat bodyBusinessId then .missingBusinessId
  else
    match bodyBusinessId, stored with
    | some bid, some o =>
      if o.businessId != bid then .forbidden
      else
        let newItems := cart.map fun c =>
          { productId := c.productId, quantity := c.quantity, price := c.price
            name := c.name, status := putItemStatus c o.items }
        let updated : Order :=
          { o with tableNumber := tn, totalAmount := total, paymentMethod := pm
                   estimatedTime := et, items := newItems }
        .ok updated
          { order_id := formatOrderId o.id, table_number := tn
            total_amount := total, payment_method := pm, status := "Pending"
            estimated_time := et, items := newItems }
    | _, none => .forbidden
    | none, _ => .missingBusinessId

/-- A `Plan` row restricted to the fields the read paths touch.  Times are
modelled as integer timestamps. -/
structure Plan where
  businessId : Nat
  name : String
  expiresAt : Int
  status : String
deriving Repr, DecidableEq

/-- Outcome of the two plan read endpoints: the stored plan after the
read (the lazy-expiry write included), the status string reported in the
response, and the `isExpired` flag of the response. -/
inductive PlanReadResult where
  | notFound
  | ok (stored : Plan) (reported : String) (isExpired : Bool)
deriving Repr, DecidableEq

/-- Shared body of `GET /subscription/status/:businessId` and `GET /plan`
(routes/plan, authenticated): compute `isExpired = expiresAt < now`;
when the plan is past expiry AND its stored status is exactly "active",
persist status "expired" and report it; in every other case the stored
row is left untouched and the stored status is reported as is. -/
def readPlanLazy (stored : Option Plan) (now : Int) : PlanReadResult :=
  match stored with
  | none => .notFound
  | some p =>
    let isExpired := decide (p.expiresAt < now)
    if isExpired && p.status == "active" then
      .ok { p with status := "expired" } "expired" isExpired
    else
      .ok p p.status isExpired

/-- A `Coupon` row (`maxDiscount` is a nullable double in the schema, so
a stored value of 0 is representable and distinct from null). -/
structure Coupon where
  id : Nat
  code : String
  businessId : Nat
  discountType : String
  discountValue : ℚ
  maxDiscount : Option ℚ
  minOrderValue : ℚ
  validFrom : Int
  validTill : Int
deriving Repr, DecidableEq

/-- Discount arithmetic of `POST /validate` (routes/coupons): a flat
coupon yields its value; a percent coupon yields
`discountValue / 100 * orderTotal`, overwritten by `maxDiscount` only when
`coupon.maxDiscount && discount > coupon.maxDiscount` — by JavaScript
truthiness a null OR ZERO `maxDiscount` skips the cap. -/
def computeDiscount (c : Coupon) (orderTotal : ℚ) : ℚ :=
  if c.discountType == "flat" then c.discountValue
  else if c.discountType == "percent" then
    let d := c.discountValue / 100 * orderTotal
    match c.maxDiscount with
    | some m => if m != 0 && decide (m < d) then m else d
    | none => d
  else 0

/-- Outcomes of `POST /validate` (routes/coupons). -/
inductive ValidateResult where
  | missingFields
  | notFound
  | belowMin (minOrderValue : ℚ)
  | ok (discount : ℚ)
deriving Repr, DecidableEq

/-- JavaScript `String.prototype.toUpperCase()` on the coupon code,
written character-wise so that concrete instances evaluate. -/
def jsToUpper (s : String) : String :=
  String.mk (s.data.map Char.toUpper)

/-- Handler of `POST /validate` (routes/coupons, authenticated): the
missing-field check `!code || !orderTotal` runs first (truthiness: an
absent OR ZERO order total is rejected before any lookup); then
`findFirst` over the coupon table with the upper-cased code, the session
businessId and the validity window; then the minimum-order-value check;
then the discount computation. -/
def validateCoupon (code : Option String) (orderTotal : Option ℚ)
    (bid : Nat) (coupons : List Coupon) (now : Int) : ValidateResult :=
  if !(truthyStr code && truthyNum orderTotal) then .missingFields
  else
    match code, orderTotal with
    | some cd, some total =>
      match coupons.find? fun c =>
          c.code == jsToUpper cd && c.businessId == bid &&
          decide (c.validFrom ≤ now) && decide (now ≤ c.validTill) with
      | none => .notFound
      | some c =>
        if total < c.minOrderValue then .belowMin c.minOrderValue
        else .ok (computeDiscount c total)
    | _, _ => .missingFields

/-- A `Table` row ((tableNumber, businessId) is unique in the schema). -/
structure RTable where
  id : Nat
  tableNumber : Int
  businessId : Nat
deriving Repr, DecidableEq

/-- One entry of the table-availability response. -/
structure TableStatusEntry where
  id : Nat
  tableNumber : Int
  status : String
deriving Repr, DecidableEq

/-- Per-table marking of the availability view: "Booked" when the table's
number is among the booked table numbers, "Available" otherwise. -/
def markTable (bookedTableNumbers : List Int) (t : RTable) : TableStatusEntry :=
  { id := t.id, tableNumber := t.tableNumber
    status := if bookedTableNumbers.contains t.tableNumber then "Booked"
              else "Available" }

/-- Handler of `GET /:businessId` (routes/table, no auth): fetch the
tenant's tables ordered by table number ascending, fetch the tenant's
orders whose status is not "Completed", build the set of their table
numbers, and mark each table "Booked" when its number is in that set,
"Available" otherwise.  Nothing is written: occupancy is derived from the
live order list passed in at read time. -/
def tableView (bid : Nat) (tables : List RTable) (orders : List Order) :
    List TableStatusEntry :=
  let allTables :=
    (tables.filter fun t => t.businessId == bid).insertionSort
      fun a b => a.tableNumber ≤ b.tableNumber
  let bookedTableNumbers :=
    (orders.filter fun o => o.businessId == bid && o.status != "Completed").map
      fun o => o.tableNumber
  allTables.map (markTable bookedTableNumbers)

/-- The derivation string equals "Completed" exactly when the item list
is non-empty and every item is completed. -/
theorem deriveOrderStatus_eq_completed_iff (items : List OrderItem) :
    deriveOrderStatus items = "Completed" ↔
      (items ≠ [] ∧ ∀ i ∈ items, i.status = "Completed") := by
  unfold deriveOrderStatus allCompleted
  split
  case isTrue h =>
    simp only [Bool.and_eq_true, List.all_eq_true, beq_iff_eq,
      decide_eq_true_eq] at h
    exact iff_of_true rfl ⟨List.ne_nil_of_length_pos h.2, h.1⟩
  case isFalse h =>
    simp only [Bool.and_eq_true, List.all_eq_true, beq_iff_eq,
      decide_eq_true_eq, not_and] at h
    refine iff_of_false (by decide) ?_
    rintro ⟨hne, hall⟩
    exact absurd (List.length_pos.mpr hne) (h hall)

/-- C1, counterexample: an order whose item list is empty (reachable via
the PUT update with an empty cart) is marked "Completed" by complete-all,
while the claimed characterisation requires "Pending" for an empty item
list, so the if-and-only-if fails after the bulk operation. -/
theorem completeAll_empty_order_counterexample :
    completeAll (some 1) (some ⟨1, 1, none, 4, 200, "cash", "15m", "Pending", []⟩) =
      .ok ⟨1, 1, none, 4, 200, "cash", "15m", "Completed", []⟩ "Completed" ∧
    ¬(((⟨1, 1, none, 4, 200, "cash", "15m", "Completed", []⟩ : Order).status = "Completed") ↔
        ((⟨1, 1, none, 4, 200, "cash", "15m", "Completed", []⟩ : Order).items ≠ [] ∧
          ∀ i ∈ (⟨1, 1, none, 4, 200, "cash", "15m", "Completed", []⟩ : Order).items,
            i.status = "Completed")) := by
  refine ⟨by decide, ?_⟩
  intro h
  exact absurd (h.mp rfl).1 (by decide)

/-- C1 (amended): after any per-item status mutation the stored order
status equals "Completed" if and only if the item list is non-empty and
every item is completed (and equals "Pending" otherwise); after the bulk
complete-all operation every item is set to "Completed" and the stored
status is "Completed" unconditionally, which agrees with that
characterisation exactly when the item list is non-empty. -/
theorem order_status_reconciliation :
    (∀ session stored pid st o rep,
        patchItemStatus session stored pid st = .ok o rep →
        (o.status = "Completed" ↔
          (o.items ≠ [] ∧ ∀ i ∈ o.items, i.status = "Completed"))) ∧
    (∀ session stored o rep,
        completeAll session stored = .ok o rep →
        o.status = "Completed" ∧ (∀ i ∈ o.items, i.status = "Completed") ∧
        (o.items ≠ [] →
          (o.status = "Completed" ↔
            (o.items ≠ [] ∧ ∀ i ∈ o.items, i.status = "Completed")))) := by
  constructor
  · intro session stored pid st o rep h
    cases session with
    | none => exact PatchResult.noConfusion h
    | some bid =>
      cases stored with
      | none => exact PatchResult.noConfusion h
      | some o0 =>
        simp only [patchItemStatus] at h
        split at h
        · exact PatchResult.noConfusion h
        · split at h
          · exact PatchResult.noConfusion h
          · injection h with h1 h2
            subst h1
            exact deriveOrderStatus_eq_completed_iff _
  · intro session stored o rep h
    cases session with
    | none => exact PatchResult.noConfusion h
    | some bid =>
      cases stored with
      | none => exact PatchResult.noConfusion h
      | some o0 =>
        simp only [completeAll] at h
        split at h
        · exact PatchResult.noConfusion h
        · injection h with h1 h2
          subst h1
          have hall : ∀ i ∈ o0.items.map (fun i => { i with status := "Completed" }),
              i.status = "Completed" := by
            intro i hi
            rcases List.mem_map.mp hi with ⟨j, _, rfl⟩
            rfl
          exact ⟨rfl, hall, fun hne => iff_of_true rfl ⟨hne, hall⟩⟩

/-- C1 witness: marking the sole pending item of a one-item order
completed yields a stored order whose status satisfies the
characterisation. -/
theorem order_status_reconciliation_witness :
    ((⟨1, 1, none, 4, 200, "cash", "15m", "Completed",
        [⟨1, 2, 100, "X", "Completed"⟩]⟩ : Order).status = "Completed" ↔
      ((⟨1, 1, none, 4, 200, "cash", "15m", "Completed",
          [⟨1, 2, 100, "X", "Completed"⟩]⟩ : Order).items ≠ [] ∧
        ∀ i ∈ (⟨1, 1, none, 4, 200, "cash", "15m", "Completed",
            [⟨1, 2, 100, "X", "Completed"⟩]⟩ : Order).items, i.status = "Completed")) :=
  order_status_reconciliation.1 (some 1)
    (some ⟨1, 1, none, 4, 200, "cash", "15m", "Pending", [⟨1, 2, 100, "X", "Pending"⟩]⟩)
    1 "Completed"
    ⟨1, 1, none, 4, 200, "cash", "15m", "Completed", [⟨1, 2, 100, "X", "Completed"⟩]⟩
    "Completed" (by decide)

/-- C4, counterexample: the direct order-status PATCH stores the
caller-supplied "Completed" on an order whose single item is still
pending, so the stored status disagrees with the derivation from the
item statuses. -/
theorem patchOrderStatus_overrides_derivation :
    patchOrderStatus (some 1)
        (some ⟨1, 1, none, 4, 200, "cash", "15m", "Pending", [⟨1, 2, 100, "X", "Pending"⟩]⟩)
        "Completed" =
      .ok ⟨1, 1, none, 4, 200, "cash", "15m", "Completed", [⟨1, 2, 100, "X", "Pending"⟩]⟩
        "Completed" ∧
    deriveOrderStatus [⟨1, 2, 100, "X", "Pending"⟩] = "Pending" := by
  exact ⟨by decide, by decide⟩

/-- C4 (amended): the per-item PATCH stores exactly the status derived
from the updated items, and complete-all stores "Completed" together with
setting every item to "Completed"; but the direct order-status PATCH
writes the caller-supplied string into the order row while leaving the
items untouched, so it can store a status that disagrees with the
derivation. -/
theorem order_status_write_discipline :
    (∀ session stored pid st o rep,
        patchItemStatus session stored pid st = .ok o rep →
        o.status = deriveOrderStatus o.items) ∧
    (∀ session stored o rep,
        completeAll session stored = .ok o rep →
        o.status = "Completed" ∧ ∀ i ∈ o.items, i.status = "Completed") ∧
    (∀ session o0 st o rep,
        patchOrderStatus session (some o0) st = .ok o rep →
        o.status = st ∧ o.items = o0.items) := by
  refine ⟨?_, ?_, ?_⟩
  · intro session stored pid st o rep h
    cases session with
    | none => exact PatchResult.noConfusion h
    | some bid =>
      cases stored with
      | none => exact PatchResult.noConfusion h
      | some o0 =>
        simp only [patchItemStatus] at h
        split at h
        · exact PatchResult.noConfusion h
        · split at h
          · exact PatchResult.noConfusion h
          · injection h with h1 h2
            subst h1
            rfl
  · intro session stored o rep h
    cases session with
    | none => exact PatchResult.noConfusion h
    | some bid =>
      cases stored with
      | none => exact PatchResult.noConfusion h
      | some o0 =>
        simp only [completeAll] at h
        split at h
        · exact PatchResult.noConfusion h
        · injection h with h1 h2
          subst h1
          refine ⟨rfl, ?_⟩
          intro i hi
          rcases List.mem_map.mp hi with ⟨j, _, rfl⟩
          rfl
  · intro session o0 st o rep h
    cases session with
    | none => exact PatchResult.noConfusion h
    | some bid =>
      simp only [patchOrderStatus] at h
      split at h
      · exact PatchResult.noConfusion h
      · injection h with h1 h2
        subst h1
        exact ⟨rfl, rfl⟩

/-- C4 witness: completing the item of a one-item order stores exactly
the derived status. -/
theorem order_status_write_discipline_witness :
    (⟨1, 1, none, 4, 200, "cash", "15m", "Completed",
        [⟨1, 2, 100, "X", "Completed"⟩]⟩ : Order).status =
      deriveOrderStatus (⟨1, 1, none, 4, 200, "cash", "15m", "Completed",
        [⟨1, 2, 100, "X", "Completed"⟩]⟩ : Order).items :=
  order_status_write_discipline.1 (some 1)
    (some ⟨1, 1, none, 4, 200, "cash", "15m", "Pending", [⟨1, 2, 100, "X", "Pending"⟩]⟩)
    1 "Completed"
    ⟨1, 1, none, 4, 200, "cash", "15m", "Completed", [⟨1, 2, 100, "X", "Completed"⟩]⟩
    "Completed" (by decide)

/-- C2: a valid creation request with N cart entries creates exactly one
order row with status "Pending" whose item rows are the N cart entries
with the caller-supplied price and name stored verbatim (the product
record is never consulted) and status "Pending"; the response tags the
order as "ORD" followed by the numeric id left-padded with zeros to five
digits. -/
theorem createOrder_effects
    (req : CreateOrderRequest) (cid : Option Nat) (newId : Nat)
    (bid : Nat) (tn : Int) (cart : List CartItem) (total : ℚ) (pm et : String)
    (hb : req.businessId = some bid) (hb0 : bid ≠ 0)
    (ht : req.table_number = some tn) (ht0 : tn ≠ 0)
    (hc : req.cart_items = some cart) (hc0 : cart ≠ [])
    (hm : req.total_amount = some total) (hm0 : total ≠ 0)
    (hp : req.payment_method = some pm) (hp0 : pm ≠ "")
    (he : req.estimated_time = some et) (he0 : et ≠ "") :
    ∃ o resp, createOrder req cid newId = .created o resp ∧
      o.status = "Pending" ∧ o.businessId = bid ∧ o.id = newId ∧
      o.items.length = cart.length ∧
      (∀ k (h1 : k < o.items.length) (h2 : k < cart.length),
        (o.items.get ⟨k, h1⟩).price = (cart.get ⟨k, h2⟩).price ∧
        (o.items.get ⟨k, h1⟩).name = (cart.get ⟨k, h2⟩).name ∧
        (o.items.get ⟨k, h1⟩).productId = (cart.get ⟨k, h2⟩).productId ∧
        (o.items.get ⟨k, h1⟩).quantity = (cart.get ⟨k, h2⟩).quantity ∧
        (o.items.get ⟨k, h1⟩).status = "Pending") ∧
      resp.order_id = "ORD" ++ padStart (Nat.repr newId) 5 '0' ∧
      resp.status = "Pending" ∧ resp.items = o.items ∧
      resp.table_number = tn ∧ resp.estimated_time = et := by
  have h1 : truthyNat (some bid) = true := by simp [truthyNat, hb0]
  have h2 : truthyInt (some tn) = true := by simp [truthyInt, ht0]
  have h3 : truthyNum (some total) = true := by simp [truthyNum, hm0]
  have h4 : truthyStr (some pm) = true := by simp [truthyStr, hp0]
  have h5 : truthyStr (some et) = true := by simp [truthyStr, he0]
  have hlen : (cart.length == 0) = false := by
    simp [List.length_eq_zero, hc0]
  have hrun : createOrder req cid newId = .created
      ⟨newId, bid, cid, tn, total, pm, et, "Pending",
        cart.map fun c => ⟨c.productId, c.quantity, c.price, c.name, "Pending"⟩⟩
      ⟨formatOrderId newId, tn, "Pending", et,
        cart.map fun c => ⟨c.productId, c.quantity, c.price, c.name, "Pending"⟩⟩ := by
    unfold createOrder
    rw [hb, ht, hc, hm, hp, he]
    simp only [h1, h2, h3, h4, h5, hlen, Option.isSome_some, Bool.and_self,
      Bool.and_true, Bool.true_and, Bool.not_true, Bool.false_eq_true,
      if_false, Bool.not_false, if_true]
  refine ⟨_, _, hrun, rfl, rfl, rfl, by simp, ?_, rfl, rfl, rfl, rfl, rfl⟩
  intro k hk1 hk2
  simp [List.get_eq_getElem, List.getElem_map]

/-- C2 witness: the specification scenario — table 4, one cart entry
(product 1, quantity 2, price 100, name "X"), total 200, cash, "15m",
guest caller, first order id. -/
theorem createOrder_effects_witness :
    ∃ o resp,
      createOrder ⟨some 1, some 4, some [⟨1, 2, 100, "X", none⟩], some 200,
          some "cash", some "15m", none⟩ none 1 = .created o resp ∧
      o.status = "Pending" ∧ o.businessId = 1 ∧ o.id = 1 ∧
      o.items.length = ([⟨1, 2, 100, "X", none⟩] : List CartItem).length ∧
      (∀ k (h1 : k < o.items.length)
          (h2 : k < ([⟨1, 2, 100, "X", none⟩] : List CartItem).length),
        (o.items.get ⟨k, h1⟩).price = (([⟨1, 2, 100, "X", none⟩] : List CartItem).get ⟨k, h2⟩).price ∧
        (o.items.get ⟨k, h1⟩).name = (([⟨1, 2, 100, "X", none⟩] : List CartItem).get ⟨k, h2⟩).name ∧
        (o.items.get ⟨k, h1⟩).productId = (([⟨1, 2, 100, "X", none⟩] : List CartItem).get ⟨k, h2⟩).productId ∧
        (o.items.get ⟨k, h1⟩).quantity = (([⟨1, 2, 100, "X", none⟩] : List CartItem).get ⟨k, h2⟩).quantity ∧
        (o.items.get ⟨k, h1⟩).status = "Pending") ∧
      resp.order_id = "ORD" ++ padStart (Nat.repr 1) 5 '0' ∧
      resp.status = "Pending" ∧ resp.items = o.items ∧
      resp.table_number = 4 ∧ resp.estimated_time = "15m" :=
  createOrder_effects _ none 1 1 4 [⟨1, 2, 100, "X", none⟩] 200 "cash" "15m"
    rfl (by decide) rfl (by decide) rfl (by decide) rfl (by decide)
    rfl (by decide) rfl (by decide)

/-- C6: when the requested redemption exceeds the customer's balance the
redemption step leaves the balance unchanged, the accrual step still runs
(adding one order, the spend, and floor(total / 100) points), and the
endpoint still answers with the 201 creation result. -/
theorem insufficient_points_redemption
    (req : CreateOrderRequest) (c : Customer) (newId : Nat)
    (o : Order) (resp : OrderCreateResponse) (p : Int) (total : ℚ)
    (hrun : createOrder req (some c.id) newId = .created o resp)
    (hp : req.pointsUsed = some p)
    (hins : c.points < p)
    (htot : req.total_amount = some total) :
    placeOrder req (some c) newId = (.created o resp, some (accruePoints c total)) ∧
    redeemPoints c req.pointsUsed = c ∧
    (accruePoints c total).points = c.points + ⌊total / 100⌋ := by
  have hred : redeemPoints c (some p) = c := by
    simp only [redeemPoints]
    split
    · rw [if_neg (not_le.mpr hins)]
    · rfl
  refine ⟨?_, by rw [hp]; exact hred, rfl⟩
  simp only [placeOrder, Option.map_some', hrun, htot, customerAfterCreate, hp, hred]

/-- C6 witness: a customer holding 5 points asks to redeem 10 on a valid
200-total order; the order is created, the redemption is skipped, and the
accrual adds floor(200 / 100) = 2 points. -/
theorem insufficient_points_redemption_witness :
    placeOrder ⟨some 1, some 4, some [⟨1, 2, 100, "X", none⟩], some 200,
        some "cash", some "15m", some 10⟩ (some ⟨7, 5, 0, 0⟩) 1 =
      (.created ⟨1, 1, some 7, 4, 200, "cash", "15m", "Pending",
          [⟨1, 2, 100, "X", "Pending"⟩]⟩
        ⟨"ORD" ++ padStart (Nat.repr 1) 5 '0', 4, "Pending", "15m",
          [⟨1, 2, 100, "X", "Pending"⟩]⟩,
       some (accruePoints ⟨7, 5, 0, 0⟩ 200)) ∧
    redeemPoints (⟨7, 5, 0, 0⟩ : Customer) (some 10) = ⟨7, 5, 0, 0⟩ ∧
    (accruePoints (⟨7, 5, 0, 0⟩ : Customer) 200).points = 5 + ⌊(200 : ℚ) / 100⌋ :=
  insufficient_points_redemption
    ⟨some 1, some 4, some [⟨1, 2, 100, "X", none⟩], some 200, some "cash",
      some "15m", some 10⟩
    ⟨7, 5, 0, 0⟩ 1
    ⟨1, 1, some 7, 4, 200, "cash", "15m", "Pending", [⟨1, 2, 100, "X", "Pending"⟩]⟩
    ⟨"ORD" ++ padStart (Nat.repr 1) 5 '0', 4, "Pending", "15m",
      [⟨1, 2, 100, "X", "Pending"⟩]⟩
    10 200 (by decide) rfl (by decide) rfl

/-- C3, counterexample: the single-order fetch takes no session or tenant
input at all (the route mounts no authentication middleware and queries
by order id alone), so a caller from any other tenant receives the full
order of tenant 1 with a 200 response instead of an authorization
failure. -/
theorem getOrder_no_tenant_check_counterexample :
    getOrder (some ⟨1, 1, none, 4, 200, "cash", "15m", "Pending",
        [⟨1, 2, 100, "X", "Pending"⟩]⟩) =
      .ok ⟨"ORD" ++ padStart (Nat.repr 1) 5 '0', 4, 200, "cash", "Pending", "15m",
        [⟨1, 2, 100, "X", "Pending"⟩]⟩ := by
  decide

/-- C3 (amended): the authenticated order mutations (status PATCH,
per-item PATCH, complete-all) reject a cross-tenant order with a 403 and
leave it unchanged, and the PUT update rejects when the stored order's
tenant differs from the caller-supplied body businessId; but the
single-order fetch performs no tenant check at all — it succeeds for
every stored order without any caller identity — and the PUT update's
check compares against the request body, not the authenticated session. -/
theorem tenant_scoping_order_endpoints :
    (∀ o : Order, getOrder (some o) =
      .ok ⟨formatOrderId o.id, o.tableNumber, o.totalAmount, o.paymentMethod,
           deriveOrderStatus o.items, o.estimatedTime, o.items⟩) ∧
    (∀ bid (o : Order) st, o.businessId ≠ bid →
      patchOrderStatus (some bid) (some o) st = .forbidden) ∧
    (∀ bid (o : Order) pid st, o.businessId ≠ bid →
      patchItemStatus (some bid) (some o) pid st = .forbidden) ∧
    (∀ bid (o : Order), o.businessId ≠ bid →
      completeAll (some bid) (some o) = .forbidden) ∧
    (∀ bid (o : Order) tn cart total pm et, bid ≠ 0 → o.businessId ≠ bid →
      updateOrder (some bid) (some o) tn cart total pm et = .forbidden) := by
  refine ⟨fun o => rfl, ?_, ?_, ?_, ?_⟩
  · intro bid o st hne
    simp [patchOrderStatus, bne_iff_ne, hne]
  · intro bid o pid st hne
    simp [patchItemStatus, bne_iff_ne, hne]
  · intro bid o hne
    simp [completeAll, bne_iff_ne, hne]
  · intro bid o tn cart total pm et hbid0 hne
    simp [updateOrder, truthyNat, bne_iff_ne, hbid0, hne]

/-- C3 witness: a session of tenant 2 trying to PATCH the status of an
order of tenant 1 is rejected with 403. -/
theorem tenant_scoping_order_endpoints_witness :
    patchOrderStatus (some 2)
      (some ⟨1, 1, none, 4, 200, "cash", "15m", "Pending", []⟩) "Completed" =
      .forbidden :=
  tenant_scoping_order_endpoints.2.1 2
    ⟨1, 1, none, 4, 200, "cash", "15m", "Pending", []⟩ "Completed" (by decide)

/-- Defaulting chain of the PUT update's item statuses, characterised
without reference to the implementation order: caller value when truthy,
else the matched just-deleted item's truthy status, else "Pending". -/
theorem putItemStatus_spec (c : CartItem) (existing : List OrderItem) :
    (c.status.getD "" ≠ "" → putItemStatus c existing = c.status.getD "") ∧
    (c.status.getD "" = "" →
      ((existing.find? fun e => e.productId == c.productId) = none →
        putItemStatus c existing = "Pending") ∧
      (∀ e, (existing.find? fun e' => e'.productId == c.productId) = some e →
        e.status ≠ "" → putItemStatus c existing = e.status)) := by
  constructor
  · intro hne
    have htr : truthyStr c.status = true := by
      cases hcs : c.status with
      | none => rw [hcs] at hne; simp at hne
      | some s =>
        rw [hcs] at hne
        simp only [Option.getD_some] at hne
        simp [truthyStr, hne]
    simp [putItemStatus, htr]
  · intro heq
    have htr : truthyStr c.status = false := by
      cases hcs : c.status with
      | none => simp [truthyStr]
      | some s =>
        rw [hcs] at heq
        simp only [Option.getD_some] at heq
        simp [truthyStr, heq]
    constructor
    · intro hnone
      simp [putItemStatus, htr, hnone]
    · intro e he hene
      simp [putItemStatus, htr, he, bne_iff_ne, hene]

/-- C7, counterexample: updating an order whose stored header status is
"Completed" returns 200 with a body claiming "Pending", but the Prisma
update writes no `status` field, so the stored header status stays
"Completed". -/
theorem updateOrder_keeps_stored_status :
    updateOrder (some 1)
        (some ⟨1, 1, none, 4, 200, "cash", "15m", "Completed",
          [⟨1, 2, 100, "X", "Completed"⟩]⟩)
        4 [⟨1, 2, 100, "X", none⟩] 200 "cash" "15m" =
      .ok ⟨1, 1, none, 4, 200, "cash", "15m", "Completed",
          [⟨1, 2, 100, "X", "Completed"⟩]⟩
        ⟨"ORD" ++ padStart (Nat.repr 1) 5 '0', 4, 200, "cash", "Pending", "15m",
          [⟨1, 2, 100, "X", "Completed"⟩]⟩ ∧
    ("Completed" : String) ≠ "Pending" := by
  exact ⟨by decide, by decide⟩

/-- C7 (amended): after a successful PUT update the response body reports
status "Pending" but the stored header status is left unchanged (the
update never writes the status column); each newly created item's status
is the caller-supplied value when truthy, else the truthy status of the
just-deleted item with the same product id, else "Pending". -/
theorem updateOrder_status_semantics
    (bid : Nat) (o0 : Order) (tn : Int) (cart : List CartItem) (total : ℚ)
    (pm et : String) (u : Order) (resp : OrderResponse)
    (h : updateOrder (some bid) (some o0) tn cart total pm et = .ok u resp) :
    u.status = o0.status ∧ resp.status = "Pending" ∧
    u.items.length = cart.length ∧
    (∀ k (h1 : k < u.items.length) (h2 : k < cart.length),
      ((cart.get ⟨k, h2⟩).status.getD "" ≠ "" →
        (u.items.get ⟨k, h1⟩).status = (cart.get ⟨k, h2⟩).status.getD "") ∧
      ((cart.get ⟨k, h2⟩).status.getD "" = "" →
        ((o0.items.find? fun e => e.productId == (cart.get ⟨k, h2⟩).productId) = none →
          (u.items.get ⟨k, h1⟩).status = "Pending") ∧
        (∀ e, (o0.items.find? fun e' => e'.productId == (cart.get ⟨k, h2⟩).productId) = some e →
          e.status ≠ "" → (u.items.get ⟨k, h1⟩).status = e.status))) := by
  simp only [updateOrder] at h
  split at h
  · exact UpdateResult.noConfusion h
  · split at h
    · exact UpdateResult.noConfusion h
    · injection h with h1 h2
      subst h1
      refine ⟨rfl, ?_, by simp, ?_⟩
      · subst h2; rfl
      · intro k hk1 hk2
        have hget : ((cart.map fun c =>
            (⟨c.productId, c.quantity, c.price, c.name,
              putItemStatus c o0.items⟩ : OrderItem)).get ⟨k, hk1⟩).status =
            putItemStatus (cart.get ⟨k, hk2⟩) o0.items := by
          simp [List.get_eq_getElem, List.getElem_map]
        refine ⟨?_, ?_⟩
        · intro hne
          rw [hget]
          exact (putItemStatus_spec _ _).1 hne
        · intro heq
          refine ⟨?_, ?_⟩
          · intro hnone
            rw [hget]
            exact ((putItemStatus_spec _ _).2 heq).1 hnone
          · intro e he hene
            rw [hget]
            exact ((putItemStatus_spec _ _).2 heq).2 e he hene

/-- C7 witness: a valid update of a one-item order with header status
"Served" and a completed existing item, where the cart entry carries no
status: the recreated item inherits "Completed", the stored header keeps
"Served", and the response claims "Pending". -/
theorem updateOrder_status_semantics_witness :
    ((⟨1, 1, none, 4, 200, "cash", "15m", "Served",
        [⟨1, 2, 100, "X", "Completed"⟩]⟩ : Order).status =
      (⟨1, 1, none, 4, 200, "cash", "15m", "Served",
        [⟨1, 2, 100, "X", "Completed"⟩]⟩ : Order).status) ∧
    (⟨"ORD" ++ padStart (Nat.repr 1) 5 '0', 4, 200, "cash", "Pending", "15m",
        [⟨1, 2, 100, "X", "Completed"⟩]⟩ : OrderResponse).status = "Pending" ∧
    (⟨1, 1, none, 4, 200, "cash", "15m", "Served",
        [⟨1, 2, 100, "X", "Completed"⟩]⟩ : Order).items.length =
      ([⟨1, 2, 100, "X", none⟩] : List CartItem).length ∧
    (∀ k (h1 : k < (⟨1, 1, none, 4, 200, "cash", "15m", "Served",
          [⟨1, 2, 100, "X", "Completed"⟩]⟩ : Order).items.length)
        (h2 : k < ([⟨1, 2, 100, "X", none⟩] : List CartItem).length),
      ((([⟨1, 2, 100, "X", none⟩] : List CartItem).get ⟨k, h2⟩).status.getD "" ≠ "" →
        ((⟨1, 1, none, 4, 200, "cash", "15m", "Served",
            [⟨1, 2, 100, "X", "Completed"⟩]⟩ : Order).items.get ⟨k, h1⟩).status =
          (([⟨1, 2, 100, "X", none⟩] : List CartItem).get ⟨k, h2⟩).status.getD "") ∧
      ((([⟨1, 2, 100, "X", none⟩] : List CartItem).get ⟨k, h2⟩).status.getD "" = "" →
        (((⟨1, 1, none, 4, 200, "cash", "15m", "Served",
            [⟨1, 2, 100, "X", "Completed"⟩]⟩ : Order).items.find?
            (fun e => e.productId ==
              (([⟨1, 2, 100, "X", none⟩] : List CartItem).get ⟨k, h2⟩).productId)) = none →
          ((⟨1, 1, none, 4, 200, "cash", "15m", "Served",
              [⟨1, 2, 100, "X", "Completed"⟩]⟩ : Order).items.get ⟨k, h1⟩).status = "Pending") ∧
        (∀ e, ((⟨1, 1, none, 4, 200, "cash", "15m", "Served",
            [⟨1, 2, 100, "X", "Completed"⟩]⟩ : Order).items.find?
            (fun e' => e'.productId ==
              (([⟨1, 2, 100, "X", none⟩] : List CartItem).get ⟨k, h2⟩).productId)) = some e →
          e.status ≠ "" →
          ((⟨1, 1, none, 4, 200, "cash", "15m", "Served",
              [⟨1, 2, 100, "X", "Completed"⟩]⟩ : Order).items.get ⟨k, h1⟩).status = e.status))) :=
  updateOrder_status_semantics 1
    ⟨1, 1, none, 4, 200, "cash", "15m", "Served", [⟨1, 2, 100, "X", "Completed"⟩]⟩
    4 [⟨1, 2, 100, "X", none⟩] 200 "cash" "15m"
    ⟨1, 1, none, 4, 200, "cash", "15m", "Served", [⟨1, 2, 100, "X", "Completed"⟩]⟩
    ⟨"ORD" ++ padStart (Nat.repr 1) 5 '0', 4, 200, "cash", "Pending", "15m",
      [⟨1, 2, 100, "X", "Completed"⟩]⟩ (by decide)

/-- C8, counterexample: a plan with status "pending" whose expiry time
has passed is reported and stored as "pending" by the read paths — the
lazy transition fires only from "active", not "for every prior status". -/
theorem plan_pending_not_expired_counterexample :
    readPlanLazy (some ⟨1, "Starter", 0, "pending"⟩) 100 =
      .ok ⟨1, "Starter", 0, "pending"⟩ "pending" true ∧
    ("pending" : String) ≠ "expired" := by
  exact ⟨by decide, by decide⟩

/-- C8 (amended): on any read of a plan past its expiry the handlers mark
the response `isExpired`; the stored status is transitioned to "expired"
and reported as "expired" only when the prior stored status is exactly
"active" — any other prior status (pending, cancelled, or already
expired) is left untouched and reported as stored. -/
theorem plan_lazy_expiry (p : Plan) (now : Int) (hexp : p.expiresAt < now) :
    (p.status = "active" →
      readPlanLazy (some p) now = .ok { p with status := "expired" } "expired" true) ∧
    (p.status ≠ "active" →
      readPlanLazy (some p) now = .ok p p.status true) := by
  constructor
  · intro ha
    simp [readPlanLazy, hexp, ha]
  · intro hna
    simp [readPlanLazy, hexp, hna]

/-- C8 witness: an "active" plan past expiry is stored and reported as
"expired" by the read. -/
theorem plan_lazy_expiry_witness :
    readPlanLazy (some ⟨1, "Pro Monthly", 0, "active"⟩) 100 =
      .ok { (⟨1, "Pro Monthly", 0, "active"⟩ : Plan) with status := "expired" }
        "expired" true :=
  (plan_lazy_expiry ⟨1, "Pro Monthly", 0, "active"⟩ 100 (by decide)).1 rfl

/-- C9, counterexample: a percent coupon whose cap is stored as 0 (the
column is nullable, so 0 is a set cap distinct from null) is not capped
at all — JavaScript truthiness treats the 0 cap as absent — so a 20%
coupon with cap 0 on a 10,000 total yields 20% of 10,000 = 2000, not
min(20% of 10,000, 0) = 0, and the discount exceeds the cap. -/
theorem coupon_zero_cap_counterexample :
    validateCoupon (some "SAVE") (some 10000) 1
        [⟨1, "SAVE", 1, "percent", 20, some 0, 0, 0, 100⟩] 50 =
      .ok ((20 : ℚ) / 100 * 10000) ∧
    (20 : ℚ) / 100 * 10000 = 2000 ∧
    ¬((2000 : ℚ) = min ((20 : ℚ) / 100 * 10000) 0) ∧ ¬((2000 : ℚ) ≤ 0) := by
  exact ⟨rfl, by norm_num, by norm_num, by norm_num⟩

/-- C9 (amended): for a validated coupon the discount equals the flat
value for a flat coupon; for a percent coupon with a NONZERO cap it is
exactly min(discountValue / 100 × orderTotal, cap) and never exceeds the
cap (a cap stored as 0 is skipped by the truthiness check and the
uncapped percentage is returned). -/
theorem coupon_discount_computation
    (cd : String) (total : ℚ) (bid : Nat) (c : Coupon) (now : Int) (d : ℚ)
    (h : validateCoupon (some cd) (some total) bid [c] now = .ok d) :
    (c.discountType = "flat" → d = c.discountValue) ∧
    (c.discountType = "percent" → ∀ m, c.maxDiscount = some m → m ≠ 0 →
      d = min (c.discountValue / 100 * total) m ∧ d ≤ m) := by
  have hd : d = computeDiscount c total := by
    simp only [validateCoupon] at h
    split at h
    · exact ValidateResult.noConfusion h
    · cases hf : List.find? (fun c' => c'.code == jsToUpper cd &&
          c'.businessId == bid && decide (c'.validFrom ≤ now) &&
          decide (now ≤ c'.validTill)) [c] with
      | none =>
        simp only [hf] at h
        exact ValidateResult.noConfusion h
      | some c1 =>
        have hc1 : c1 = c := by
          have hmem := List.mem_of_find?_eq_some hf
          simpa using hmem
        subst hc1
        simp only [hf] at h
        split at h
        · exact ValidateResult.noConfusion h
        · injection h with h1
          exact h1.symm
  subst hd
  constructor
  · intro hflat
    simp [computeDiscount, hflat]
  · intro hperc m hm hm0
    have hmne : (m != 0) = true := by simpa [bne_iff_ne] using hm0
    rw [computeDiscount, hperc, hm]
    simp only [show (("percent" : String) == "flat") = false from by decide,
      Bool.false_eq_true, if_false,
      show (("percent" : String) == "percent") = true from by decide, if_true,
      hmne, Bool.true_and]
    by_cases hcmp : m < c.discountValue / 100 * total
    · simp only [hcmp, decide_true_eq_true, if_true]
      exact ⟨(min_eq_right (le_of_lt hcmp)).symm, le_refl m⟩
    · simp only [hcmp, decide_false_eq_false, if_false]
      exact ⟨(min_eq_left (not_lt.mp hcmp)).symm, not_lt.mp hcmp⟩

/-- C9 witness: the specification example — a percent coupon of 20% with
cap 500 on an order total of 10,000 (matched case-insensitively) yields
exactly 500 = min(2000, 500), and 500 ≤ 500. -/
theorem coupon_discount_computation_witness :
    validateCoupon (some "save") (some 10000) 1
        [⟨1, "SAVE", 1, "percent", 20, some 500, 0, 0, 100⟩] 50 = .ok 500 ∧
    ((500 : ℚ) = min ((20 : ℚ) / 100 * 10000) 500 ∧ (500 : ℚ) ≤ 500) := by
  have h : validateCoupon (some "save") (some 10000) 1
      [⟨1, "SAVE", 1, "percent", 20, some 500, 0, 0, 100⟩] 50 = .ok 500 := by
    have hup : jsToUpper "save" = "SAVE" := by decide
    norm_num [validateCoupon, computeDiscount, truthyStr, truthyNum, hup,
      List.find?]
    decide
  refine ⟨h, ?_, by norm_num⟩
  exact ((coupon_discount_computation "save" 10000 1
    ⟨1, "SAVE", 1, "percent", 20, some 500, 0, 0, 100⟩ 50 500 h).2
    rfl 500 rfl (by norm_num)).1

/-- C10: an order total of exactly 0 is rejected with the 400
missing-fields response before any coupon lookup — for every coupon
table, coupon code, tenant and time, in particular when a matching coupon
with minimum order value 0 exists and is otherwise valid. -/
theorem zero_total_rejected_before_lookup
    (code : Option String) (bid : Nat) (coupons : List Coupon) (now : Int) :
    validateCoupon code (some 0) bid coupons now = .missingFields := by
  simp [validateCoupon, truthyNum]

/-- C5: the table-availability view lists entries sorted by table number
whose (id, tableNumber) pairs are exactly the tenant's tables, and marks
an entry "Booked" precisely when some order of the tenant whose status is
not "Completed" sits at that table number — everything recomputed from
the order list handed in at read time, with no stored occupancy. -/
theorem tableView_spec (bid : Nat) (tables : List RTable) (orders : List Order) :
    ((tableView bid tables orders).Pairwise fun a b => a.tableNumber ≤ b.tableNumber) ∧
    ((tableView bid tables orders).map fun e => (e.id, e.tableNumber)).Perm
      ((tables.filter fun t => t.businessId == bid).map fun t => (t.id, t.tableNumber)) ∧
    (∀ e ∈ tableView bid tables orders,
      (e.status = "Booked" ↔
        ∃ o ∈ orders, o.businessId = bid ∧ o.status ≠ "Completed" ∧
          o.tableNumber = e.tableNumber) ∧
      (e.status = "Booked" ∨ e.status = "Available")) := by
  haveI : IsTotal RTable fun a b => a.tableNumber ≤ b.tableNumber :=
    ⟨fun a b => le_total a.tableNumber b.tableNumber⟩
  haveI : IsTrans RTable fun a b => a.tableNumber ≤ b.tableNumber :=
    ⟨fun _ _ _ hab hbc => le_trans hab hbc⟩
  refine ⟨?_, ?_, ?_⟩
  · show (((tables.filter fun t => t.businessId == bid).insertionSort
        fun a b => a.tableNumber ≤ b.tableNumber).map
          (markTable ((orders.filter fun o =>
            o.businessId == bid && o.status != "Completed").map
              fun o => o.tableNumber))).Pairwise
        fun a b => a.tableNumber ≤ b.tableNumber
    have hs := List.sorted_insertionSort (α := RTable)
      (fun a b => a.tableNumber ≤ b.tableNumber)
      (tables.filter fun t => t.businessId == bid)
    exact List.Pairwise.map _ (fun a b hab => hab) hs
  · show ((((tables.filter fun t => t.businessId == bid).insertionSort
        fun a b => a.tableNumber ≤ b.tableNumber).map
          (markTable ((orders.filter fun o =>
            o.businessId == bid && o.status != "Completed").map
              fun o => o.tableNumber))).map fun e => (e.id, e.tableNumber)).Perm
      ((tables.filter fun t => t.businessId == bid).map fun t => (t.id, t.tableNumber))
    rw [List.map_map]
    exact List.Perm.map _
      (List.perm_insertionSort (fun a b => a.tableNumber ≤ b.tableNumber)
        (tables.filter fun t => t.businessId == bid))
  · intro e he
    have he' : e ∈ ((tables.filter fun t => t.businessId == bid).insertionSort
        fun a b => a.tableNumber ≤ b.tableNumber).map
          (markTable ((orders.filter fun o =>
            o.businessId == bid && o.status != "Completed").map
              fun o => o.tableNumber)) := he
    rcases List.mem_map.mp he' with ⟨t, _, rfl⟩
    have hiff : (((orders.filter fun o =>
        o.businessId == bid && o.status != "Completed").map
          fun o => o.tableNumber).contains t.tableNumber) = true ↔
        ∃ o ∈ orders, o.businessId = bid ∧ o.status ≠ "Completed" ∧
          o.tableNumber = t.tableNumber := by
      simp [List.mem_filter, and_assoc]
    by_cases hb : (((orders.filter fun o =>
        o.businessId == bid && o.status != "Completed").map
          fun o => o.tableNumber).contains t.tableNumber) = true
    · have hst : (markTable ((orders.filter fun o =>
          o.businessId == bid && o.status != "Completed").map
            fun o => o.tableNumber) t).status = "Booked" := by
        simp only [markTable]
        rw [if_pos hb]
      refine ⟨?_, Or.inl hst⟩
      rw [hst]
      constructor
      · intro _
        obtain ⟨o, ho, h1, h2, h3⟩ := hiff.mp hb
        exact ⟨o, ho, h1, h2, h3⟩
      · intro _
        rfl
    · have hst : (markTable ((orders.filter fun o =>
          o.businessId == bid && o.status != "Completed").map
            fun o => o.tableNumber) t).status = "Available" := by
        simp only [markTable]
        rw [if_neg hb]
      refine ⟨?_, Or.inr hst⟩
      rw [hst]
      constructor
      · intro habs
        exact absurd habs (by decide)
      · intro hex
        obtain ⟨o, ho, h1, h2, h3⟩ := hex
        exact absurd (hiff.mpr ⟨o, ho, h1, h2, h3⟩) hb

/-- C5 witness: a tenant with one table (number 4) and one pending order
at table 4 sees that table marked "Booked", matching the existence of a
non-completed order at its number. -/
theorem tableView_spec_witness :
    (((⟨1, 4, "Booked"⟩ : TableStatusEntry).status = "Booked" ↔
      ∃ o ∈ [(⟨1, 1, none, 4, 200, "cash", "15m", "Pending", []⟩ : Order)],
        o.businessId = 1 ∧ o.status ≠ "Completed" ∧
          o.tableNumber = (⟨1, 4, "Booked"⟩ : TableStatusEntry).tableNumber) ∧
     ((⟨1, 4, "Booked"⟩ : TableStatusEntry).status = "Booked" ∨
      (⟨1, 4, "Booked"⟩ : TableStatusEntry).status = "Available")) :=
  (tableView_spec 1 [⟨1, 4, 1⟩]
    [⟨1, 1, none, 4, 200, "cash", "15m", "Pending", []⟩]).2.2
    ⟨1, 4, "Booked"⟩ (by decide)
